import Mathlib

/-!
Verification development for the Friday/Jarvis WhatsApp relay and
autonomous-reply engine.

The definitions below are a shallow embedding of the Python sources:

* `friday/integrations/whatsapp_service.py` (Selenium-based service:
  change detection by chat-list preview fingerprints, chat reading,
  send with retry, notification construction),
* `friday/integrations/whatsapp_webjs_service.py` (Node-bridge service:
  polling monitor, send via HTTP bridge, notification construction),
* `friday/main.py` (`FridayApp`: conversation history windows, user
  utterance pool, the pending-reply slot, the decision engine driving
  auto-replies, and the rewrite-and-send path).

External effects (Selenium, HTTP, SQLite, the OpenAI completion call,
GUI and TTS) are modelled as oracle inputs and as emitted events or
actions; wall-clock `datetime.now()` values and generated UUIDs are
not modelled because no verified property depends on them.  Python
strings are modelled as Lean `String`, with Python `strip` / `upper` /
`split` / slicing re-implemented structurally on the character list so
that all definitions evaluate.
-/

namespace Friday

/-! ### Python string primitives (structural re-implementations) -/

/-- Whitespace test used by Python `str.strip()` for the characters that
occur in this code base. -/
def isSpaceChar (c : Char) : Bool :=
  c = ' ' || c = '\t' || c = '\n' || c = '\r'

/-- Python `str.strip()` on a character list. -/
def stripChars (l : List Char) : List Char :=
  ((l.dropWhile isSpaceChar).reverse.dropWhile isSpaceChar).reverse

/-- Python `str.strip()`. -/
def pyStrip (s : String) : String :=
  String.mk (stripChars s.toList)

/-- Python `str.upper()` (ASCII, which is all the parser compares). -/
def pyUpper (s : String) : String :=
  String.mk (s.toList.map Char.toUpper)

/-- Python `s[:n]` on a string (slicing by code points). -/
def pyTake (n : Nat) (s : String) : String :=
  String.mk (s.toList.take n)

/-- Helper for `pySplitNl`: splits a character list at every newline. -/
def splitNlAux (cur : List Char) : List Char → List (List Char)
  | [] => [cur.reverse]
  | c :: rest =>
    if c = '\n' then cur.reverse :: splitNlAux [] rest
    else splitNlAux (c :: cur) rest

/-- Python `str.split('\n')`. -/
def pySplitNl (s : String) : List String :=
  (splitNlAux [] s.toList).map String.mk

/-- Joins lines back with newlines (used to model `split('\n', 1)[1]` and
`rsplit('\n', 1)[0]`, which keep the remaining newlines intact). -/
def joinNl : List String → String
  | [] => ""
  | [x] => x
  | x :: rest => x ++ "\n" ++ joinNl rest

/-- List-level prefix test (Python `str.startswith`). -/
def startsWithChars : List Char → List Char → Bool
  | [], _ => true
  | _ :: _, [] => false
  | p :: ps, c :: cs => p = c && startsWithChars ps cs

/-- Python `str.startswith(pre)`. -/
def pyStartsWith (pre s : String) : Bool :=
  startsWithChars pre.toList s.toList

/-- Python `str.endswith(suf)`. -/
def pyEndsWith (suf s : String) : Bool :=
  startsWithChars suf.toList.reverse s.toList.reverse

/-! ### Association lists (Python `dict` with string keys) -/

/-- `m[k]` lookup for a Python dict modelled as an association list. -/
def alookup {β : Type} (m : List (String × β)) (k : String) : Option β :=
  match m with
  | [] => none
  | (k', v) :: rest => if k' = k then some v else alookup rest k

/-- `m[k] = v` update for a Python dict modelled as an association list. -/
def aset {β : Type} (m : List (String × β)) (k : String) (v : β) :
    List (String × β) :=
  match m with
  | [] => [(k, v)]
  | (k', v') :: rest =>
    if k' = k then (k, v) :: rest else (k', v') :: aset rest k v

/-! ### Data model (`whatsapp_models.py`) -/

/-- `MessageDirection` from `whatsapp_models.py`. -/
inductive MessageDirection
  | incoming
  | outgoing
deriving DecidableEq, Repr

/-- `WhatsAppMessage` from `whatsapp_models.py`, restricted to the fields
the claims touch (`id`, `timestamp`, `message_type` and `media_path` are
environment-generated and never inspected by a verified property). -/
structure WAMessage where
  chat_name : String
  sender_name : String
  content : String
  direction : MessageDirection
  is_read : Bool
  is_from_me : Bool
deriving DecidableEq, Repr

/-- `WhatsAppNotification` from `whatsapp_models.py` (without the
timestamp and the `unread_count`, which both services set to a fixed
value). -/
structure WhatsAppNotification where
  chat_name : String
  sender_name : String
  message_preview : String
deriving DecidableEq, Repr

/-- `_trigger_notification` of both services: the preview handed to the
notification callbacks is the first 100 characters of the content
(`message.content[:100]`). -/
def triggerNotification (m : WAMessage) : WhatsAppNotification :=
  { chat_name := m.chat_name
    sender_name := m.sender_name
    message_preview := pyTake 100 m.content }

/-! ### Change Detector (`whatsapp_service.py`, Selenium service) -/

/-- One message element scraped from an open conversation panel
(`_read_current_chat_messages` loop body): whether the element carries
the `message-out` class, the text of its `selectable-text` span, and the
optional group-sender element. -/
structure RawMsg where
  is_from_me : Bool
  text : String
  group_sender : Option String
deriving DecidableEq, Repr

/-- One chat entry scraped from the sidebar list
(`_check_for_new_messages` loop body): the unread indicator, the `title`
of the name span (empty models a missing element), the preview text
(empty models a missing element), and the messages that become visible
when the chat is clicked open. -/
structure ChatObs where
  has_unread : Bool
  name : String
  preview : String
  msgs : List RawMsg
deriving DecidableEq, Repr

/-- The mutable per-conversation tracking state of `WhatsAppService`:
`last_message_previews` (the preview fingerprints) and
`last_seen_messages` (the message-level dedup layer). -/
structure DetectorState where
  last_message_previews : List (String × String)
  last_seen_messages : List (String × String)
deriving DecidableEq, Repr

/-- An observable step of the monitoring code, in program order:
fingerprint writes and chat opens happen inside
`_check_for_new_messages`; persists, queue puts and notifications happen
afterwards in `_monitor_messages`. -/
inductive Event
  | fingerprintWrite (chat preview : String)
  | openChat (chat : String)
  | persist (m : WAMessage)
  | enqueue (m : WAMessage)
  | notify (n : WhatsAppNotification)
deriving DecidableEq, Repr

/-- The incoming message object built by `_read_current_chat_messages`
for a non-self message: `direction=INCOMING`, `is_from_me=False`,
`is_read=False`, sender defaulting to the chat name unless a group
sender element was scraped. -/
def mkIncoming (chat_name : String) (m : RawMsg) : WAMessage :=
  { chat_name := chat_name
    sender_name := m.group_sender.getD chat_name
    content := m.text
    direction := .incoming
    is_read := false
    is_from_me := false }

/-- The message loop of `_read_current_chat_messages`: skip a message
equal to the last seen text for this chat, collect it when it is not
self-authored, and update the last seen text either way.  Returns the
final last-seen text together with the collected incoming messages. -/
def readLoop (chat_name : String) (seen : Option String) :
    List RawMsg → Option String × List WAMessage
  | [] => (seen, [])
  | m :: rest =>
    if seen = some m.text then
      readLoop chat_name seen rest
    else
      let r := readLoop chat_name (some m.text) rest
      (r.1, (if m.is_from_me then [] else [mkIncoming chat_name m]) ++ r.2)

/-- `_read_current_chat_messages`: processes the last `limit` message
elements (`message_elements[-limit:]`, default 10) through `readLoop`
and stores the final last-seen text in `last_seen_messages`. -/
def readCurrentChatMessages (s : DetectorState) (chat_name : String)
    (msgs : List RawMsg) (limit : Nat) : DetectorState × List WAMessage :=
  let recent := msgs.drop (msgs.length - limit)
  let r := readLoop chat_name (alookup s.last_seen_messages chat_name) recent
  let seenMap :=
    match r.1 with
    | none => s.last_seen_messages
    | some t => aset s.last_seen_messages chat_name t
  ({ s with last_seen_messages := seenMap }, r.2)

/-- The per-chat body of `_check_for_new_messages`: skip chats without
an unread indicator, a blank name, or an empty preview; with no stored
fingerprint, record the preview as a baseline and read nothing; with an
unchanged fingerprint, skip; with a changed fingerprint, update the
fingerprint first, then open and read the chat. -/
def processChat (s : DetectorState) (c : ChatObs) :
    DetectorState × List WAMessage × List Event :=
  if !c.has_unread then (s, [], [])
  else if stripChars c.name.toList = [] then (s, [], [])
  else if c.preview = "" then (s, [], [])
  else
    match alookup s.last_message_previews c.name with
    | some last =>
      if last = c.preview then (s, [], [])
      else
        let s1 := { s with
          last_message_previews :=
            aset s.last_message_previews c.name c.preview }
        let r := readCurrentChatMessages s1 c.name c.msgs 10
        (r.1, r.2, [.fingerprintWrite c.name c.preview, .openChat c.name])
    | none =>
      ({ s with
          last_message_previews :=
            aset s.last_message_previews c.name c.preview },
       [], [.fingerprintWrite c.name c.preview])

/-- The chat-list loop of `_check_for_new_messages`, accumulating state,
surfaced messages and events in scan order. -/
def scanChats (s : DetectorState) :
    List ChatObs → DetectorState × List WAMessage × List Event
  | [] => (s, [], [])
  | c :: rest =>
    let r := processChat s c
    let r' := scanChats r.1 rest
    (r'.1, r.2.1 ++ r'.2.1, r.2.2 ++ r'.2.2)

/-- `_check_for_new_messages`: scans the first 20 chats of the sidebar
(`all_chats[:20]`). -/
def checkForNewMessages (s : DetectorState) (chats : List ChatObs) :
    DetectorState × List WAMessage × List Event :=
  scanChats s (chats.take 20)

/-- The delivery loop of `_monitor_messages`: for each surfaced message,
save it to the database, put it on the queue, and trigger the
notification callbacks — in that order. -/
def deliverEvents (msgs : List WAMessage) : List Event :=
  (msgs.map fun m =>
    [Event.persist m, Event.enqueue m, Event.notify (triggerNotification m)]).flatten

/-- One connected iteration of the `_monitor_messages` polling loop:
`_check_for_new_messages` followed by the delivery loop. -/
def monitorCycle (s : DetectorState) (chats : List ChatObs) :
    DetectorState × List Event :=
  let r := checkForNewMessages s chats
  (r.1, r.2.2 ++ deliverEvents r.2.1)

/-! ### Event-order predicates for the fingerprint/store claims -/

/-- Indices (from `k`) of the elements satisfying `p`. -/
def idxsFrom {α : Type} (p : α → Bool) : Nat → List α → List Nat
  | _, [] => []
  | k, x :: xs =>
    if p x then k :: idxsFrom p (k + 1) xs else idxsFrom p (k + 1) xs

/-- Indices of the events satisfying `p` in a trace. -/
def eventIdxs (tr : List Event) (p : Event → Bool) : List Nat :=
  idxsFrom p 0 tr

/-- Recognises a fingerprint write for conversation `c`. -/
def isFingerprintWrite (c : String) : Event → Bool
  | .fingerprintWrite chat _ => chat = c
  | _ => false

/-- Recognises a database persist of a message of conversation `c`. -/
def isPersistFor (c : String) : Event → Bool
  | .persist m => m.chat_name = c
  | _ => false

/-- The ordering asserted by the spec: every fingerprint write for `c`
comes after every persist of a message of `c`. -/
def storeThenFingerprint (tr : List Event) (c : String) : Bool :=
  (eventIdxs tr (isFingerprintWrite c)).all fun i =>
    (eventIdxs tr (isPersistFor c)).all fun j => j < i

/-- The ordering the code actually realises: every fingerprint write for
`c` comes before every persist of a message of `c`. -/
def fingerprintThenStore (tr : List Event) (c : String) : Bool :=
  (eventIdxs tr (isFingerprintWrite c)).all fun i =>
    (eventIdxs tr (isPersistFor c)).all fun j => i < j

/-- Events emitted by the scanning phase (`_check_for_new_messages`). -/
def isScanEvent : Event → Bool
  | .fingerprintWrite _ _ => true
  | .openChat _ => true
  | _ => false

/-! ### WebJS service (`whatsapp_webjs_service.py`) -/

/-- One record of the `/messages/new` response handed over by the Node
bridge (`msg_data` in `_monitor_messages`).  The bridge itself is not
part of the Python sources; its records are oracle input here. -/
structure BridgeMsg where
  chatName : String
  senderName : String
  body : String
  isFromMe : Bool
deriving DecidableEq, Repr

/-- The `WhatsAppMessage` constructed by
`WhatsAppWebJSService._monitor_messages` from a bridge record:
`direction=INCOMING` and `is_read=True` unconditionally, `is_from_me`
copied from the record. -/
def webjsConvert (b : BridgeMsg) : WAMessage :=
  { chat_name := b.chatName
    sender_name := b.senderName
    content := b.body
    direction := .incoming
    is_read := true
    is_from_me := b.isFromMe }

/-- One poll iteration of `WhatsAppWebJSService._monitor_messages` with
a 200 response: every returned record is converted and handed to
`_trigger_notification`, with no filtering. -/
def webjsMonitorStep (msgs : List BridgeMsg) : List WhatsAppNotification :=
  msgs.map fun b => triggerNotification (webjsConvert b)

/-! ### Send paths of both services -/

/-- Outcome of one attempt of `WhatsAppService.send_message`:
the contact search timed out (early `return False`), the attempt went
through to the database save and `return True`, or some step raised and
the loop retries. -/
inductive AttemptOutcome
  | contactNotFound
  | sendOk
  | raisesBeforeSave
deriving DecidableEq, Repr

/-- The outgoing message record `WhatsAppService.send_message` saves on
success: `direction=OUTGOING`, `is_from_me=True`, `is_read=True`,
sender `"Me"`, content the sent text. -/
def mkOutgoing (contact message : String) : WAMessage :=
  { chat_name := contact
    sender_name := "Me"
    content := message
    direction := .outgoing
    is_read := true
    is_from_me := true }

/-- `WhatsAppService.send_message` (Selenium): the retry loop over a
bounded list of attempt outcomes (list length = the `retries` bound,
default 3).  Returns the boolean result together with the records
persisted to the Chat Store during the call. -/
def sendMessageSelenium (contact message : String) :
    List AttemptOutcome → Bool × List WAMessage
  | [] => (false, [])
  | o :: rest =>
    match o with
    | .contactNotFound => (false, [])
    | .sendOk => (true, [mkOutgoing contact message])
    | .raisesBeforeSave => sendMessageSelenium contact message rest

/-- Outcome of `WhatsAppWebJSService.send_message`: the contact search
returns non-200, returns no results, the send POST returns 200 or an
error, or some step raises. -/
inductive WebJSSendOutcome
  | searchHttpError
  | noResults
  | sendHttp200
  | sendHttpError
  | raises
deriving DecidableEq, Repr

/-- `WhatsAppWebJSService.send_message`: returns `True` exactly on a 200
send response.  The service holds no database, so the list of records
persisted to the Chat Store during the call is empty in every case. -/
def sendMessageWebJS (contact message : String) :
    WebJSSendOutcome → Bool × List WAMessage
  | .searchHttpError => (false, [])
  | .noResults => (false, [])
  | .sendHttp200 => (true, [])
  | .sendHttpError => (false, [])
  | .raises => (false, [])

/-! ### FridayApp state (`main.py`) -/

/-- The `pending_whatsapp_message` dict
(`{'contact': ..., 'sender': ..., 'original_message': ...}`). -/
structure PendingMsg where
  contact : String
  sender : String
  original_message : String
deriving DecidableEq, Repr

/-- An entry of `user_context` (`{'text': ..., 'timestamp': ...}`);
`time.time()` is modelled as an integer number of seconds. -/
structure UserCtxEntry where
  text : String
  timestamp : Int
deriving DecidableEq, Repr

/-- The `FridayApp` fields the relay engine mutates. -/
structure AppState where
  whatsapp_enabled : Bool
  waiting_for_whatsapp_reply : Bool
  pending_whatsapp_message : Option PendingMsg
  last_whatsapp_contact : Option String
  whatsapp_conversations : List (String × List String)
  user_context : List UserCtxEntry
deriving DecidableEq, Repr

/-- An observable side effect of `FridayApp`: a `send_message` call, a
message posted to the conversation view, a spoken summary, a
logger-only error, or the `logger.info("Rewriting reply to ...")` that
marks the start of one rewrite-and-send consumption. -/
inductive Action
  | sendAttempt (contact text : String)
  | guiMessage (text : String)
  | speak (text : String)
  | logError (text : String)
  | logRewriting (sender user_text : String)
deriving DecidableEq, Repr

/-- User-visible output: a conversation-view message or speech. -/
def isUserVisible : Action → Bool
  | .guiMessage _ => true
  | .speak _ => true
  | _ => false

/-- Recognises a `send_message` call. -/
def isSendAttempt : Action → Bool
  | .sendAttempt _ _ => true
  | _ => false

/-- Recognises the start marker of a rewrite-and-send consumption. -/
def isLogRewriting : Action → Bool
  | .logRewriting _ _ => true
  | _ => false

/-! ### Bounded windows (`_add_to_conversation_history`,
`_add_user_context`) -/

/-- The `append`-then-trim idiom shared by both windows:
`buf.append(x); if len(buf) > k: buf = buf[-k:]`. -/
def boundedAppend {α : Type} (k : Nat) (l : List α) (x : α) : List α :=
  let l' := l ++ [x]
  if l'.length > k then l'.drop (l'.length - k) else l'

/-- `max_history_per_contact` (50). -/
def maxHistoryPerContact : Nat := 50

/-- The `[THEM]`/`[YOU]` line format of `_add_to_conversation_history`
(`direction = "THEM" if not is_from_user else "YOU"`). -/
def formatHistoryLine (message : String) (is_from_user : Bool) : String :=
  (if is_from_user then "[YOU] " else "[THEM] ") ++ message

/-- `_add_to_conversation_history`: lazily creates the per-contact list,
appends the formatted line, and keeps only the last
`max_history_per_contact` entries. -/
def addToConversationHistory (convs : List (String × List String))
    (contact message : String) (is_from_user : Bool) :
    List (String × List String) :=
  let hist := (alookup convs contact).getD []
  aset convs contact
    (boundedAppend maxHistoryPerContact hist
      (formatHistoryLine message is_from_user))

/-- The per-contact window (`whatsapp_conversations.get(contact, [])`). -/
def historyOf (convs : List (String × List String)) (contact : String) :
    List String :=
  (alookup convs contact).getD []

/-- Runs a sequence of `(message, is_from_user)` appends for one contact
starting from an empty conversation store. -/
def runHistory (contact : String) (msgs : List (String × Bool)) :
    List (String × List String) :=
  msgs.foldl (fun convs m => addToConversationHistory convs contact m.1 m.2) []

/-- The multi-contact append sequence of
`_add_to_conversation_history`. -/
def runHistoryMulti (appends : List (String × String × Bool)) :
    List (String × List String) :=
  appends.foldl
    (fun cv a => addToConversationHistory cv a.1 a.2.1 a.2.2) []

/-- `_get_conversation_history_text`. -/
def getConversationHistoryText (convs : List (String × List String))
    (contact : String) : String :=
  match alookup convs contact with
  | none => "No previous conversation history with this contact."
  | some [] => "No previous conversation history with this contact."
  | some hist =>
    "RECENT CONVERSATION HISTORY:\n" ++ joinNl hist

/-- `max_user_context` (30). -/
def maxUserContext : Nat := 30

/-- `_add_user_context`: appends `(text, now)` and keeps only the last
`max_user_context` entries — eviction is purely capacity-based. -/
def addUserContext (pool : List UserCtxEntry) (text : String) (now : Int) :
    List UserCtxEntry :=
  boundedAppend maxUserContext pool ⟨text, now⟩

/-- The sentinel `_get_user_context_text` returns when nothing recent is
stored. -/
def noContextSentinel : String := "No recent user context."

/-- `_get_user_context_text`: empty pool gives the sentinel; otherwise
entries with `time.time() - ctx['timestamp'] < 300` are kept, the
sentinel is returned if none qualify, and the qualifying texts are
rendered as `- ` lines under a fixed header. -/
def getUserContextText (pool : List UserCtxEntry) (now : Int) : String :=
  if pool.isEmpty then noContextSentinel
  else
    let recent := pool.filter fun c => now - c.timestamp < 300
    if recent.isEmpty then noContextSentinel
    else
      "WHAT USER TOLD FRIDAY RECENTLY:\n" ++
        joinNl (recent.map fun c => "- " ++ c.text)

/-! ### Rewrite-and-send (`_rewrite_and_send_whatsapp_reply`) -/

/-- Oracle for one `_rewrite_and_send_whatsapp_reply` run: the
completion call raises, or it returns the (cleaned) rewritten text and
the subsequent `send_message` either raises or returns a boolean. -/
inductive RewriteOutcome
  | rewriteRaises
  | sendRaises (rewritten : String)
  | sendReturns (rewritten : String) (ok : Bool)
deriving DecidableEq, Repr

/-- `_rewrite_and_send_whatsapp_reply`.  With no pending context it logs
and returns.  Otherwise it logs the consumption start, rewrites and
sends.  On a `True` send it appends the reply to the conversation
history and then hits the undefined name `smart_detected` (a
`NameError`), so control moves to the `except` handler, which posts an
error notice; on a `False` send it posts a failure notice; on any raise
the `except` handler posts an error notice.  Every one of those paths
ends with `waiting_for_whatsapp_reply = False` and
`pending_whatsapp_message = None`. -/
def rewriteAndSendWhatsappReply (s : AppState) (user_text : String)
    (o : RewriteOutcome) : AppState × List Action :=
  match s.pending_whatsapp_message with
  | none => (s, [.logError "No WhatsApp context available for rewriting"])
  | some p =>
    let cleared := fun (s' : AppState) =>
      { s' with waiting_for_whatsapp_reply := false
                pending_whatsapp_message := none }
    match o with
    | .rewriteRaises =>
      (cleared s,
       [.logRewriting p.sender user_text,
        .logError "Error rewriting WhatsApp reply",
        .guiMessage "Error rewriting message"])
    | .sendRaises rw =>
      (cleared s,
       [.logRewriting p.sender user_text,
        .sendAttempt p.contact rw,
        .logError "Error rewriting WhatsApp reply",
        .guiMessage "Error rewriting message"])
    | .sendReturns rw true =>
      (cleared { s with
          whatsapp_conversations :=
            addToConversationHistory s.whatsapp_conversations p.contact
              ("You (via Jarvis): " ++ rw) true },
       [.logRewriting p.sender user_text,
        .sendAttempt p.contact rw,
        .logError "NameError: smart_detected is not defined",
        .guiMessage "Error rewriting message"])
    | .sendReturns rw false =>
      (cleared s,
       [.logRewriting p.sender user_text,
        .sendAttempt p.contact rw,
        .logError "Failed to send rewritten message",
        .guiMessage ("Failed to send message to " ++ p.sender)])

/-- The parse of the `tell <name> <text>` directive in
`_process_user_message` (regex `^tell\s+([^,]+?)\s+(.+)$` plus the
excluded-word check); `none` models no match or an excluded word. -/
structure TellCommand where
  contact : String
  message : String
deriving DecidableEq, Repr

/-- The original-message placeholder the `tell` path stores in the
pending slot before rewriting. -/
def tellPlaceholder : String := "(Direct message via Tell command)"

/-- The first two priority steps of `_process_user_message`: a matched
`tell` directive (with WhatsApp enabled) overwrites the pending slot
and routes to rewrite-and-send; otherwise, with
`waiting_for_whatsapp_reply` set and a pending message present, the
utterance is consumed by rewrite-and-send; otherwise the remaining
pipeline (intents, quick reply, general chat — none of which touch the
pending slot before these two checks) runs as `fallback`. -/
def processUserMessage (tellParse : String → Option TellCommand)
    (fallback : AppState → String → AppState × List Action)
    (s : AppState) (text : String) (o : RewriteOutcome) :
    AppState × List Action :=
  match tellParse text, s.whatsapp_enabled with
  | some tc, true =>
    rewriteAndSendWhatsappReply
      { s with pending_whatsapp_message := some ⟨tc.contact, tc.contact, tellPlaceholder⟩ }
      tc.message o
  | _, _ =>
    if s.waiting_for_whatsapp_reply && s.pending_whatsapp_message.isSome then
      rewriteAndSendWhatsappReply s text o
    else fallback s text

/-! ### Decision engine (`_process_whatsapp_with_ai`) -/

/-- Drops everything up to and including the first newline
(`split('\n', 1)[1] if '\n' in s else s`). -/
def dropFirstLine (s : String) : String :=
  match pySplitNl s with
  | [] => s
  | [_] => s
  | _ :: rest => joinNl rest

/-- Drops everything from the last newline on
(`rsplit('\n', 1)[0] if '\n' in s else s`). -/
def dropLastLine (s : String) : String :=
  match pySplitNl s with
  | [] => s
  | [_] => s
  | parts => joinNl parts.dropLast

/-- The response cleaning of `_process_whatsapp_with_ai`: strip, drop an
opening code-fence line, drop a closing code-fence line. -/
def cleanDecisionResponse (response : String) : String :=
  let r := pyStrip response
  let r := if pyStartsWith "```" r then dropFirstLine r else r
  if pyEndsWith "```" r then dropLastLine r else r

/-- The line parse of `_process_whatsapp_with_ai`:
`[line.strip() for line in cleaned.strip().split('\n') if line.strip()]`. -/
def parseDecisionLines (response : String) : List String :=
  ((pySplitNl (pyStrip (cleanDecisionResponse response))).map pyStrip).filter
    fun l => l ≠ ""

/-- Outcome of the `whatsapp.send_message` call in the auto-reply
branch. -/
inductive SendOutcome
  | ok
  | fail
  | raises
deriving DecidableEq, Repr

/-- The decision dispatch of `_process_whatsapp_with_ai` after the
completion call returned `response`.  Fewer than 3 non-empty lines: log
and return.  Line 2 equal to `YES` (case-insensitively): auto-reply,
which needs 5 lines, sends, and on success updates history and posts a
confirmation (otherwise only logs, except that a raise reaches the
outer handler and posts an error notice).  Any other line 2: the notify
path, which sets the pending slot to the notification's chat, sender
and preview, posts the summary, and records the last contact. -/
def processWhatsappDecision (s : AppState) (n : WhatsAppNotification)
    (response : String) (sendOut : SendOutcome) : AppState × List Action :=
  match parseDecisionLines response with
  | l1 :: l2 :: l3 :: rest =>
    let speak_aloud := pyUpper (pyStrip l1) = "YES"
    let should_send := pyUpper (pyStrip l2) = "YES"
    if should_send then
      match rest with
      | l4 :: l5 :: _ =>
        let send_to := pyStrip l3
        let message_text := pyStrip l4
        let summary := pyStrip l5
        match sendOut with
        | .ok =>
          let convs' := addToConversationHistory s.whatsapp_conversations
            send_to ("You (via Jarvis): " ++ message_text) true
          ({ s with whatsapp_conversations := convs' },
           [.sendAttempt send_to message_text,
            .guiMessage ("Auto-replied to " ++ send_to ++ "\n\nMessage: "
              ++ message_text ++ "\n\nContext: " ++ summary)] ++
           (if speak_aloud then [.speak summary] else []))
        | .fail =>
          (s, [.sendAttempt send_to message_text,
               .logError "Failed to send auto-reply"])
        | .raises =>
          (s, [.sendAttempt send_to message_text,
               .guiMessage ("Received message from " ++ n.sender_name
                 ++ "\nError processing with AI")])
      | _ =>
        (s, [.logError "Invalid GPT-4o response for auto-reply"])
    else
      let summary := pyStrip l3
      ({ s with
          waiting_for_whatsapp_reply := true
          pending_whatsapp_message := some ⟨n.chat_name, n.sender_name, n.message_preview⟩
          last_whatsapp_contact := some n.chat_name },
       [.guiMessage ("New WhatsApp message from " ++ n.sender_name
          ++ "\n\n" ++ summary)] ++
       (if speak_aloud then [.speak summary] else []))
  | _ =>
    (s, [.logError "Invalid GPT-4o response format"])

/-- The fixed trailing instruction text of the decision prompt
(abbreviated; its exact wording carries no verified property). -/
def decisionInstructions : String :=
  "Based on your stored meeting memory, conversation history, and what "
    ++ "the user told Jarvis above, decide whether to auto-reply or "
    ++ "notify the user."

/-- The prompt body built by `_process_whatsapp_with_ai` (lines 647-659
of `main.py`): time context, conversation history, user context, and
the new message block quoting the notification's sender, chat and
preview. -/
def buildDecisionUserMessage (time_context conversation_history
    user_context : String) (n : WhatsAppNotification) : String :=
  time_context ++ "\n\n" ++ conversation_history ++ "\n\n"
    ++ user_context ++ "\n\n"
    ++ "--- NEW MESSAGE ---\n"
    ++ "From: " ++ n.sender_name ++ "\n"
    ++ "Chat: " ++ n.chat_name ++ "\n"
    ++ "Message: " ++ n.message_preview ++ "\n\n"
    ++ decisionInstructions

/-- `_send_whatsapp_message` (the direct send command path): posts a
confirmation on `True`, an explicit failure notice on `False`, and an
error notice when the send raises. -/
def sendWhatsappMessageBg (contact message : String) :
    SendOutcome → List Action
  | .ok =>
    [.sendAttempt contact message,
     .guiMessage ("WhatsApp message sent to " ++ contact)]
  | .fail =>
    [.sendAttempt contact message,
     .guiMessage ("Failed to send WhatsApp message to " ++ contact)]
  | .raises =>
    [.sendAttempt contact message,
     .logError "Error sending WhatsApp message",
     .guiMessage "Error sending message"]

/-- A concrete 101-character message content used to witness the
truncation behaviour. -/
def sampleLongContent : String := String.mk (List.replicate 101 'a')

/-- A concrete incoming message longer than 100 characters. -/
def sampleLongMessage : WAMessage :=
  { chat_name := "ChatX"
    sender_name := "Chen"
    content := sampleLongContent
    direction := .incoming
    is_read := false
    is_from_me := false }

/-! ## Helper lemmas -/

theorem alookup_aset_self {β : Type} (m : List (String × β)) (k : String)
    (v : β) : alookup (aset m k v) k = some v := by
  induction m with
  | nil => simp [aset, alookup]
  | cons kv rest ih =>
    by_cases h : kv.1 = k
    · simp [aset, alookup, h]
    · simp [aset, alookup, h, ih]

theorem boundedAppend_length_le {α : Type} (k : Nat) (l : List α) (x : α)
    (h : l.length ≤ k) : (boundedAppend k l x).length ≤ k := by
  simp only [boundedAppend]
  split <;> simp_all <;> omega

theorem boundedAppend_foldl {α : Type} (k : Nat) (hk : 0 < k) (L : List α) :
    L.foldl (boundedAppend k) [] = L.drop (L.length - k) := by
  induction L using List.reverseRecOn with
  | nil => simp
  | append_singleton L x ih =>
    rw [List.foldl_append, List.foldl_cons, List.foldl_nil, ih]
    by_cases h : L.length < k
    · have h0 : L.length - k = 0 := by omega
      have h1 : (L ++ [x]).length - k = 0 := by simp; omega
      rw [h0, List.drop_zero, h1, List.drop_zero]
      simp only [boundedAppend]
      have h2 : ¬ (L ++ [x]).length > k := by simp; omega
      rw [if_neg h2]
    · have hk' : k ≤ L.length := by omega
      have hd : (L.drop (L.length - k)).length = k := by
        rw [List.length_drop]; omega
      simp only [boundedAppend]
      have h2 : (L.drop (L.length - k) ++ [x]).length > k := by
        simp [hd]
      rw [if_pos h2]
      have h3 : (L.drop (L.length - k) ++ [x]).length - k = 1 := by
        simp [hd]
      rw [h3]
      have h4 : (L.drop (L.length - k) ++ [x]).drop 1
          = (L.drop (L.length - k)).drop 1 ++ [x] :=
        List.drop_append_of_le_length (by omega)
      rw [h4, List.drop_drop]
      have h5 : (L ++ [x]).length - k = L.length + 1 - k := by simp
      rw [h5]
      have h6 : (L ++ [x]).drop (L.length + 1 - k)
          = L.drop (L.length + 1 - k) ++ [x] :=
        List.drop_append_of_le_length (by omega)
      rw [h6]
      have h7 : L.length - k + 1 = L.length + 1 - k := by omega
      rw [h7]

theorem idxsFrom_append {α : Type} (p : α → Bool) (A B : List α) (k : Nat) :
    idxsFrom p k (A ++ B) = idxsFrom p k A ++ idxsFrom p (k + A.length) B := by
  induction A generalizing k with
  | nil => simp [idxsFrom]
  | cons a A ih =>
    simp only [List.cons_append, idxsFrom, List.append_eq]
    have harith : k + 1 + A.length = k + (A.length + 1) := by omega
    by_cases h : p a
    · simp [h, ih (k + 1), harith]
    · simp [h, ih (k + 1), harith]

theorem idxsFrom_eq_nil {α : Type} (p : α → Bool) (k : Nat) (L : List α)
    (h : ∀ x ∈ L, p x = false) : idxsFrom p k L = [] := by
  induction L generalizing k with
  | nil => rfl
  | cons a A ih =>
    simp only [idxsFrom]
    rw [h a (by simp), if_neg (by simp)]
    exact ih (k + 1) fun x hx => h x (by simp [hx])

theorem mem_idxsFrom_bounds {α : Type} (p : α → Bool) (k : Nat) (L : List α)
    (i : Nat) (h : i ∈ idxsFrom p k L) : k ≤ i ∧ i < k + L.length := by
  induction L generalizing k with
  | nil => simp [idxsFrom] at h
  | cons a A ih =>
    simp only [idxsFrom] at h
    by_cases hp : p a
    · rw [if_pos hp] at h
      rcases List.mem_cons.mp h with rfl | h'
      · simp only [List.length_cons]; omega
      · have := ih (k + 1) h'
        simp only [List.length_cons]; omega
    · rw [if_neg hp] at h
      have := ih (k + 1) h
      simp only [List.length_cons]; omega

theorem readCurrentChatMessages_previews (s : DetectorState)
    (chat : String) (msgs : List RawMsg) (limit : Nat) :
    (readCurrentChatMessages s chat msgs limit).1.last_message_previews
      = s.last_message_previews := by
  simp only [readCurrentChatMessages]

theorem processChat_events (s : DetectorState) (c : ChatObs) :
    (processChat s c).2.2 = []
    ∨ (processChat s c).2.2
        = [.fingerprintWrite c.name c.preview, .openChat c.name]
    ∨ (processChat s c).2.2 = [.fingerprintWrite c.name c.preview] := by
  simp only [processChat]
  split
  · exact Or.inl rfl
  split
  · exact Or.inl rfl
  split
  · exact Or.inl rfl
  split
  · split
    · exact Or.inl rfl
    · exact Or.inr (Or.inl rfl)
  · exact Or.inr (Or.inr rfl)

theorem processChat_fw_count_le (s : DetectorState) (c : ChatObs)
    (cn : String) :
    ((processChat s c).2.2.countP (isFingerprintWrite cn)) ≤ 1 := by
  rcases processChat_events s c with h | h | h <;>
    simp [h, List.countP_cons, isFingerprintWrite] <;> split <;> simp

theorem processChat_fw_count_ne (s : DetectorState) (c : ChatObs)
    (cn : String) (h : c.name ≠ cn) :
    ((processChat s c).2.2.countP (isFingerprintWrite cn)) = 0 := by
  rcases processChat_events s c with he | he | he <;>
    simp [he, List.countP_cons, isFingerprintWrite, h]

theorem processChat_no_persist (s : DetectorState) (c : ChatObs)
    (cn : String) : ∀ e ∈ (processChat s c).2.2, isPersistFor cn e = false := by
  intro e he
  rcases processChat_events s c with h | h | h <;> rw [h] at he <;>
    simp at he <;> rcases he with rfl | rfl <;> rfl

theorem scanChats_no_persist (s : DetectorState) (chats : List ChatObs)
    (cn : String) :
    ∀ e ∈ (scanChats s chats).2.2, isPersistFor cn e = false := by
  induction chats generalizing s with
  | nil => intro e he; simp [scanChats] at he
  | cons c rest ih =>
    intro e he
    simp only [scanChats] at he
    rcases List.mem_append.mp he with h | h
    · exact processChat_no_persist s c cn e h
    · exact ih (processChat s c).1 e h

theorem scanChats_fw_count_zero (s : DetectorState) (chats : List ChatObs)
    (cn : String) (h : ∀ co ∈ chats, co.name ≠ cn) :
    ((scanChats s chats).2.2.countP (isFingerprintWrite cn)) = 0 := by
  induction chats generalizing s with
  | nil => simp [scanChats]
  | cons c rest ih =>
    simp only [scanChats]
    rw [List.countP_append]
    rw [processChat_fw_count_ne s c cn (h c (by simp))]
    rw [ih (processChat s c).1 fun co hco => h co (by simp [hco])]

theorem scanChats_fw_count_le (s : DetectorState) (chats : List ChatObs)
    (cn : String) (h : chats.Pairwise fun a b => a.name ≠ b.name) :
    ((scanChats s chats).2.2.countP (isFingerprintWrite cn)) ≤ 1 := by
  induction chats generalizing s with
  | nil => simp [scanChats]
  | cons c rest ih =>
    rw [List.pairwise_cons] at h
    obtain ⟨hc, hrest⟩ := h
    simp only [scanChats]
    rw [List.countP_append]
    by_cases hname : c.name = cn
    · have hz := scanChats_fw_count_zero (processChat s c).1 rest cn
        fun co hco => hname ▸ (hc co hco).symm
      have hle := processChat_fw_count_le s c cn
      omega
    · have h0 := processChat_fw_count_ne s c cn hname
      have hle := ih (processChat s c).1 hrest
      omega

theorem deliverEvents_no_fw (msgs : List WAMessage) (cn : String) :
    ∀ e ∈ deliverEvents msgs, isFingerprintWrite cn e = false := by
  intro e he
  simp only [deliverEvents, List.mem_flatten, List.mem_map] at he
  obtain ⟨l, ⟨m, _, rfl⟩, he⟩ := he
  simp at he
  rcases he with rfl | rfl | rfl <;> rfl

/-- Claim C1 (counterexample).  One poll cycle over a single
conversation `X` whose stored fingerprint is `a` and whose observed
preview is `b` with one new incoming message: the fingerprint write
occurs first in the cycle trace, and the persist of the newly read
message occurs after it, so the claimed store-then-fingerprint ordering
is violated. -/
theorem C1_counterexample :
    (monitorCycle ⟨[("X", "a")], []⟩
        [⟨true, "X", "b", [⟨false, "hi", none⟩]⟩]).2
      = [Event.fingerprintWrite "X" "b", Event.openChat "X",
         Event.persist (mkIncoming "X" ⟨false, "hi", none⟩),
         Event.enqueue (mkIncoming "X" ⟨false, "hi", none⟩),
         Event.notify (triggerNotification (mkIncoming "X" ⟨false, "hi", none⟩))]
    ∧ storeThenFingerprint
        ((monitorCycle ⟨[("X", "a")], []⟩
          [⟨true, "X", "b", [⟨false, "hi", none⟩]⟩]).2) "X" = false := by
  constructor <;> rfl

/-- Claim C1 (amended): in every poll cycle of the Selenium change
detector, a conversation's fingerprint is written at most once (for
sidebar observations with pairwise-distinct chat names), and every
fingerprint write precedes every persist of that cycle's newly read
messages — the code realises fingerprint-then-store, the reverse of the
claimed store-then-fingerprint ordering. -/
theorem C1_amended (s : DetectorState) (chats : List ChatObs) (c : String)
    (h : chats.Pairwise fun a b => a.name ≠ b.name) :
    fingerprintThenStore (monitorCycle s chats).2 c = true
    ∧ (monitorCycle s chats).2.countP (isFingerprintWrite c) ≤ 1 := by
  have hA : ∀ e ∈ (checkForNewMessages s chats).2.2, isPersistFor c e = false :=
    scanChats_no_persist s (chats.take 20) c
  have hB : ∀ e ∈ deliverEvents (checkForNewMessages s chats).2.1,
      isFingerprintWrite c e = false :=
    deliverEvents_no_fw (checkForNewMessages s chats).2.1 c
  constructor
  · simp only [monitorCycle, fingerprintThenStore, eventIdxs]
    rw [List.all_eq_true]
    intro i hi
    rw [List.all_eq_true]
    intro j hj
    rw [idxsFrom_append, idxsFrom_eq_nil _ _ _ hB, List.append_nil] at hi
    rw [idxsFrom_append, idxsFrom_eq_nil _ _ _ hA, List.nil_append] at hj
    have h1 := mem_idxsFrom_bounds _ _ _ _ hi
    have h2 := mem_idxsFrom_bounds _ _ _ _ hj
    simp only [decide_eq_true_eq]
    omega
  · simp only [monitorCycle]
    rw [List.countP_append]
    have hz : (deliverEvents (checkForNewMessages s chats).2.1).countP
        (isFingerprintWrite c) = 0 := by
      rw [List.countP_eq_zero]
      intro e he
      simp [hB e he]
    have hc : ((checkForNewMessages s chats).2.2.countP
        (isFingerprintWrite c)) ≤ 1 :=
      scanChats_fw_count_le s (chats.take 20) c
        (h.sublist (List.take_sublist 20 chats))
    omega

/-- Claim C1 (witness for the amended theorem at a concrete cycle). -/
theorem C1_amended_witness :
    fingerprintThenStore
        ((monitorCycle ⟨[("X", "a")], []⟩
          [⟨true, "X", "b", [⟨false, "hi", none⟩]⟩]).2) "X" = true
    ∧ (monitorCycle ⟨[("X", "a")], []⟩
          [⟨true, "X", "b", [⟨false, "hi", none⟩]⟩]).2.countP
        (isFingerprintWrite "X") ≤ 1 :=
  C1_amended ⟨[("X", "a")], []⟩ [⟨true, "X", "b", [⟨false, "hi", none⟩]⟩] "X"
    (by simp)

theorem readLoop_incoming (chat : String) (seen : Option String)
    (msgs : List RawMsg) :
    ∀ m ∈ (readLoop chat seen msgs).2,
      m.is_from_me = false ∧ m.direction = .incoming := by
  induction msgs generalizing seen with
  | nil => intro m hm; simp [readLoop] at hm
  | cons a rest ih =>
    intro m hm
    simp only [readLoop] at hm
    split at hm
    · exact ih seen m hm
    · rcases List.mem_append.mp hm with h | h
      · split at h
        · simp at h
        · simp at h
          subst h
          exact ⟨rfl, rfl⟩
      · exact ih (some a.text) m h

theorem readCurrentChatMessages_incoming (s : DetectorState) (chat : String)
    (msgs : List RawMsg) (limit : Nat) :
    ∀ m ∈ (readCurrentChatMessages s chat msgs limit).2,
      m.is_from_me = false ∧ m.direction = .incoming := by
  intro m hm
  exact readLoop_incoming chat _ _ m hm

theorem processChat_incoming (s : DetectorState) (c : ChatObs) :
    ∀ m ∈ (processChat s c).2.1,
      m.is_from_me = false ∧ m.direction = .incoming := by
  intro m hm
  simp only [processChat] at hm
  split at hm
  · simp at hm
  split at hm
  · simp at hm
  split at hm
  · simp at hm
  split at hm
  · split at hm
    · simp at hm
    · exact readCurrentChatMessages_incoming _ _ _ _ m hm
  · simp at hm

theorem scanChats_incoming (s : DetectorState) (chats : List ChatObs) :
    ∀ m ∈ (scanChats s chats).2.1,
      m.is_from_me = false ∧ m.direction = .incoming := by
  induction chats generalizing s with
  | nil => intro m hm; simp [scanChats] at hm
  | cons c rest ih =>
    intro m hm
    simp only [scanChats] at hm
    rcases List.mem_append.mp hm with h | h
    · exact processChat_incoming s c m h
    · exact ih (processChat s c).1 m h

theorem processChat_preview_after (s : DetectorState) (c : ChatObs)
    (h1 : c.has_unread = true) (h2 : stripChars c.name.toList ≠ [])
    (h3 : c.preview ≠ "") :
    alookup (processChat s c).1.last_message_previews c.name
      = some c.preview := by
  have e1 : (!c.has_unread) ≠ true := by simp [h1]
  simp only [processChat]
  rw [if_neg e1, if_neg h2, if_neg h3]
  split
  · rename_i last hl
    split
    · rename_i heq
      rw [← heq]
      exact hl
    · rw [readCurrentChatMessages_previews]
      exact alookup_aset_self _ _ _
  · exact alookup_aset_self _ _ _

/-- Claim C7: for a scanned chat (unread indicator, non-blank name,
non-empty preview): with no stored fingerprint the poll only records the
observed preview as a baseline and surfaces nothing; with an unchanged
fingerprint the poll surfaces nothing and leaves the state untouched;
and after any poll of the chat, a second poll observing the same
preview surfaces nothing — so a message whose preview is unchanged
between consecutive polls is never surfaced twice. -/
theorem C7_fingerprint_gate (s : DetectorState) (c : ChatObs)
    (h1 : c.has_unread = true) (h2 : stripChars c.name.toList ≠ [])
    (h3 : c.preview ≠ "") :
    (alookup s.last_message_previews c.name = none →
      processChat s c
        = ({ s with last_message_previews := aset s.last_message_previews c.name c.preview },
           [], [.fingerprintWrite c.name c.preview]))
    ∧ (alookup s.last_message_previews c.name = some c.preview →
        processChat s c = (s, [], []))
    ∧ (∀ c' : ChatObs, c'.has_unread = true → c'.name = c.name →
        c'.preview = c.preview → (processChat (processChat s c).1 c').2.1 = []) := by
  have e1 : (!c.has_unread) ≠ true := by simp [h1]
  refine ⟨?_, ?_, ?_⟩
  · intro hl
    simp only [processChat]
    rw [if_neg e1, if_neg h2, if_neg h3, hl]
  · intro hl
    simp only [processChat]
    rw [if_neg e1, if_neg h2, if_neg h3]
    split
    · rename_i last hlast
      rw [hl] at hlast
      injection hlast with h'
      rw [if_pos h'.symm]
    · rename_i hlast
      rw [hl] at hlast
      exact Option.noConfusion hlast
  · intro c' hu' hn' hp'
    have hafter := processChat_preview_after s c h1 h2 h3
    set st := (processChat s c).1 with hst
    have e1' : (!c'.has_unread) ≠ true := by simp [hu']
    have h2' : stripChars c'.name.toList ≠ [] := by rw [hn']; exact h2
    have h3' : c'.preview ≠ "" := by rw [hp']; exact h3
    simp only [processChat]
    rw [if_neg e1', if_neg h2', if_neg h3', hn']
    split
    · rename_i last hl
      rw [hafter] at hl
      injection hl with hl'
      split
      · rfl
      · rename_i hne
        exact absurd (hl'.symm.trans hp'.symm) hne
    · rename_i hl
      simp [hafter] at hl

/-- Claim C7 (witness): a second poll over an unchanged preview `hey`
for chat `X` surfaces no messages and changes nothing. -/
theorem C7_fingerprint_gate_witness :
    processChat ⟨[("X", "hey")], []⟩ ⟨true, "X", "hey", [⟨false, "hey", none⟩]⟩
      = (⟨[("X", "hey")], []⟩, [], []) :=
  (C7_fingerprint_gate ⟨[("X", "hey")], []⟩
    ⟨true, "X", "hey", [⟨false, "hey", none⟩]⟩ rfl (by decide) (by decide)).2.1 rfl

/-- Claim C6 (counterexample): the WebJS monitoring path triggers a
notification for a bridge record with `isFromMe = true` — a
self-authored message is surfaced to the notification callbacks (and
hence to the decision engine), contradicting the claim. -/
theorem C6_counterexample :
    (webjsConvert ⟨"X", "Me", "typed on my phone", true⟩).is_from_me = true
    ∧ webjsMonitorStep [⟨"X", "Me", "typed on my phone", true⟩]
        = [{ chat_name := "X", sender_name := "Me",
             message_preview := "typed on my phone" }] := by
  constructor <;> rfl

/-- Claim C6 (amended): the Selenium monitoring path surfaces only
messages flagged incoming and not self-authored, but the WebJS
monitoring path triggers exactly one notification per bridge-delivered
record without inspecting `isFromMe`, so there a self-authored record
does reach the callbacks. -/
theorem C6_amended :
    (∀ (s : DetectorState) (chats : List ChatObs) m,
        m ∈ (checkForNewMessages s chats).2.1 →
        m.is_from_me = false ∧ m.direction = .incoming)
    ∧ (∀ msgs : List BridgeMsg,
        (webjsMonitorStep msgs).length = msgs.length
        ∧ ∀ b ∈ msgs,
            triggerNotification (webjsConvert b) ∈ webjsMonitorStep msgs) := by
  constructor
  · intro s chats m hm
    exact scanChats_incoming s (chats.take 20) m hm
  · intro msgs
    constructor
    · simp [webjsMonitorStep]
    · intro b hb
      simp only [webjsMonitorStep]
      exact List.mem_map_of_mem _ hb

/-- Claim C6 (witness): the Selenium clause of the amended theorem at a
concrete poll that surfaces one message. -/
theorem C6_amended_witness :
    mkIncoming "X" ⟨false, "hi", none⟩
        ∈ (checkForNewMessages ⟨[("X", "a")], []⟩
            [⟨true, "X", "b", [⟨false, "hi", none⟩]⟩]).2.1
    ∧ (mkIncoming "X" ⟨false, "hi", none⟩).is_from_me = false
    ∧ (mkIncoming "X" ⟨false, "hi", none⟩).direction = .incoming :=
  ⟨by decide, C6_amended.1 ⟨[("X", "a")], []⟩
    [⟨true, "X", "b", [⟨false, "hi", none⟩]⟩] _ (by decide)⟩

theorem alookup_aset_ne {β : Type} (m : List (String × β)) (k k' : String)
    (v : β) (h : k ≠ k') : alookup (aset m k v) k' = alookup m k' := by
  induction m with
  | nil => simp [aset, alookup, h]
  | cons kv rest ih =>
    by_cases hk : kv.1 = k
    · simp [aset, alookup, hk, h]
    · simp only [aset, alookup, if_neg hk]
      by_cases hk' : kv.1 = k'
      · simp [alookup, hk']
      · simp [alookup, hk', ih]

theorem historyOf_add (convs : List (String × List String))
    (contact message : String) (d : Bool) :
    historyOf (addToConversationHistory convs contact message d) contact
      = boundedAppend maxHistoryPerContact (historyOf convs contact)
          (formatHistoryLine message d) := by
  simp [historyOf, addToConversationHistory, alookup_aset_self]

theorem historyOf_add_ne (convs : List (String × List String))
    (contact other message : String) (d : Bool) (h : other ≠ contact) :
    historyOf (addToConversationHistory convs other message d) contact
      = historyOf convs contact := by
  simp [historyOf, addToConversationHistory, alookup_aset_ne _ _ _ _ h]

theorem historyOf_foldl (convs : List (String × List String))
    (contact : String) (msgs : List (String × Bool)) :
    historyOf
        (msgs.foldl
          (fun cv m => addToConversationHistory cv contact m.1 m.2) convs)
        contact
      = (msgs.map fun m => formatHistoryLine m.1 m.2).foldl
          (boundedAppend maxHistoryPerContact) (historyOf convs contact) := by
  induction msgs generalizing convs with
  | nil => rfl
  | cons m rest ih =>
    simp only [List.foldl_cons, List.map_cons]
    rw [ih, historyOf_add]

theorem runHistoryMulti_length_le (appends : List (String × String × Bool))
    (contact : String) :
    (historyOf (runHistoryMulti appends) contact).length
      ≤ maxHistoryPerContact := by
  suffices h : ∀ cv : List (String × List String),
      (∀ ct, (historyOf cv ct).length ≤ maxHistoryPerContact) →
      ∀ ct, (historyOf (appends.foldl
        (fun cv a => addToConversationHistory cv a.1 a.2.1 a.2.2) cv) ct).length
          ≤ maxHistoryPerContact by
    exact h [] (fun ct => by simp [historyOf, alookup]) contact
  induction appends with
  | nil => intro cv hcv ct; exact hcv ct
  | cons a rest ih =>
    intro cv hcv ct
    simp only [List.foldl_cons]
    refine ih _ ?_ ct
    intro ct'
    by_cases hc : a.1 = ct'
    · rw [← hc, historyOf_add]
      exact boundedAppend_length_le _ _ _ (hcv a.1)
    · rw [historyOf_add_ne _ _ _ _ _ hc]
      exact hcv ct'

/-- Claim C8: the per-contact conversation window never exceeds
`K = 50` lines under any sequence of appends (to any contacts); for a
single contact the window is exactly the last 50 formatted lines in
append order; in particular `K + 5` appends evict exactly the 5 oldest
lines and keep the remaining 50 in order. -/
theorem C8_history_window :
    (∀ (appends : List (String × String × Bool)) (contact : String),
      (historyOf (runHistoryMulti appends) contact).length
        ≤ maxHistoryPerContact)
    ∧ (∀ (contact : String) (msgs : List (String × Bool)),
        historyOf (runHistory contact msgs) contact
          = (msgs.map fun m => formatHistoryLine m.1 m.2).drop
              (msgs.length - maxHistoryPerContact))
    ∧ (∀ (contact : String) (msgs : List (String × Bool)),
        msgs.length = maxHistoryPerContact + 5 →
        historyOf (runHistory contact msgs) contact
          = (msgs.map fun m => formatHistoryLine m.1 m.2).drop 5) := by
  have hmain : ∀ (contact : String) (msgs : List (String × Bool)),
      historyOf (runHistory contact msgs) contact
        = (msgs.map fun m => formatHistoryLine m.1 m.2).drop
            (msgs.length - maxHistoryPerContact) := by
    intro contact msgs
    have h0 : historyOf ([] : List (String × List String)) contact = [] := by
      simp [historyOf, alookup]
    rw [runHistory, historyOf_foldl, h0,
      boundedAppend_foldl maxHistoryPerContact (by decide)]
    rw [List.length_map]
  refine ⟨runHistoryMulti_length_le, hmain, ?_⟩
  intro contact msgs hlen
  rw [hmain contact msgs, hlen]
  norm_num

/-- Claim C8 (witness): 55 appends to one contact keep exactly the last
50 formatted lines. -/
theorem C8_history_window_witness :
    (List.replicate 55 ("hello", true)).length = maxHistoryPerContact + 5
    ∧ historyOf (runHistory "Chen" (List.replicate 55 ("hello", true))) "Chen"
        = ((List.replicate 55 ("hello", true)).map
            fun m => formatHistoryLine m.1 m.2).drop 5 :=
  ⟨by simp [maxHistoryPerContact],
   C8_history_window.2.2 "Chen" (List.replicate 55 ("hello", true))
     (by simp [maxHistoryPerContact])⟩

/-- Claim C9: the user utterance pool holds exactly the newest 30
entries regardless of their timestamps (eviction is capacity-based
only), and `_get_user_context_text` renders exactly the stored entries
whose timestamp is strictly newer than 300 seconds before the read
time, returning the fixed sentinel when none qualifies (also covering
the empty pool). -/
theorem C9_user_pool :
    (∀ entries : List (String × Int),
      entries.foldl (fun pool e => addUserContext pool e.1 e.2) []
        = (entries.map fun e => UserCtxEntry.mk e.1 e.2).drop
            (entries.length - maxUserContext))
    ∧ (∀ (pool : List UserCtxEntry) (now : Int),
        getUserContextText pool now
          = if (pool.filter fun c => now - 300 < c.timestamp).isEmpty
            then noContextSentinel
            else "WHAT USER TOLD FRIDAY RECENTLY:\n" ++
              joinNl ((pool.filter fun c => now - 300 < c.timestamp).map
                fun c => "- " ++ c.text)) := by
  constructor
  · intro entries
    have h1 : entries.foldl (fun pool e => addUserContext pool e.1 e.2) []
        = (entries.map fun e => UserCtxEntry.mk e.1 e.2).foldl
            (boundedAppend maxUserContext) [] := by
      rw [List.foldl_map]
      rfl
    rw [h1, boundedAppend_foldl maxUserContext (by decide), List.length_map]
  · intro pool now
    have hfilter : (pool.filter fun c => now - c.timestamp < 300)
        = pool.filter fun c => now - 300 < c.timestamp := by
      apply List.filter_congr
      intro c _
      exact decide_eq_decide.mpr (by omega)
    by_cases hp : pool.isEmpty
    · have hnil : pool = [] := by
        cases pool with
        | nil => rfl
        | cons a l => simp [List.isEmpty] at hp
      subst hnil
      simp [getUserContextText, noContextSentinel]
    · simp only [getUserContextText, if_neg hp, hfilter]

theorem rewriteAndSend_clears (s : AppState) (q : PendingMsg)
    (ht : s.pending_whatsapp_message = some q) (user_text : String)
    (o : RewriteOutcome) :
    (rewriteAndSendWhatsappReply s user_text o).1.waiting_for_whatsapp_reply = false
    ∧ (rewriteAndSendWhatsappReply s user_text o).1.pending_whatsapp_message = none
    ∧ ((rewriteAndSendWhatsappReply s user_text o).2.countP isLogRewriting) = 1
    ∧ ((rewriteAndSendWhatsappReply s user_text o).2.countP isSendAttempt) ≤ 1 := by
  simp only [rewriteAndSendWhatsappReply, ht]
  cases o with
  | rewriteRaises =>
    simp [List.countP_cons, isLogRewriting, isSendAttempt]
  | sendRaises rw =>
    simp [List.countP_cons, isLogRewriting, isSendAttempt]
  | sendReturns rw ok =>
    cases ok <;> simp [List.countP_cons, isLogRewriting, isSendAttempt]

/-- Claim C2: whenever the pending reply slot is awaiting
(`waiting_for_whatsapp_reply = True` with a pending message present),
processing any next user utterance — through the `tell` directive path
or the pending-reply path, for every rewrite/send outcome including
exceptions — performs exactly one rewrite-and-send consumption (one
`Rewriting reply to ...` marker, at most one send attempt) and leaves
the slot cleared: waiting flag false and pending message empty. -/
theorem C2_pending_slot (tellParse : String → Option TellCommand)
    (fallback : AppState → String → AppState × List Action)
    (s : AppState) (text : String) (o : RewriteOutcome) (p : PendingMsg)
    (hw : s.waiting_for_whatsapp_reply = true)
    (hp : s.pending_whatsapp_message = some p) :
    (processUserMessage tellParse fallback s text o).1.waiting_for_whatsapp_reply = false
    ∧ (processUserMessage tellParse fallback s text o).1.pending_whatsapp_message = none
    ∧ ((processUserMessage tellParse fallback s text o).2.countP isLogRewriting) = 1
    ∧ ((processUserMessage tellParse fallback s text o).2.countP isSendAttempt) ≤ 1 := by
  cases htell : tellParse text with
  | some tc =>
    cases hen : s.whatsapp_enabled with
    | true =>
      simp only [processUserMessage, htell, hen]
      exact rewriteAndSend_clears _ ⟨tc.contact, tc.contact, tellPlaceholder⟩
        rfl tc.message o
    | false =>
      simp only [processUserMessage, htell, hen, hw, hp, Option.isSome_some,
        Bool.and_self, if_pos]
      exact rewriteAndSend_clears s p hp text o
  | none =>
    simp only [processUserMessage, htell, hw, hp, Option.isSome_some,
      Bool.and_self, if_pos]
    exact rewriteAndSend_clears s p hp text o

/-- Claim C2 (witness): a concrete awaiting state consumed by a
successful rewrite-and-send. -/
theorem C2_pending_slot_witness :
    (processUserMessage (fun _ => none) (fun st _ => (st, []))
        ⟨true, true, some ⟨"ChatX", "Chen", "Can we meet at 3pm?"⟩, none, [], []⟩
        "sure works for me" (.sendReturns "Sounds good" true)).1.waiting_for_whatsapp_reply = false
    ∧ (processUserMessage (fun _ => none) (fun st _ => (st, []))
        ⟨true, true, some ⟨"ChatX", "Chen", "Can we meet at 3pm?"⟩, none, [], []⟩
        "sure works for me" (.sendReturns "Sounds good" true)).1.pending_whatsapp_message = none
    ∧ ((processUserMessage (fun _ => none) (fun st _ => (st, []))
        ⟨true, true, some ⟨"ChatX", "Chen", "Can we meet at 3pm?"⟩, none, [], []⟩
        "sure works for me" (.sendReturns "Sounds good" true)).2.countP isLogRewriting) = 1
    ∧ ((processUserMessage (fun _ => none) (fun st _ => (st, []))
        ⟨true, true, some ⟨"ChatX", "Chen", "Can we meet at 3pm?"⟩, none, [], []⟩
        "sure works for me" (.sendReturns "Sounds good" true)).2.countP isSendAttempt) ≤ 1 :=
  C2_pending_slot (fun _ => none) (fun st _ => (st, []))
    ⟨true, true, some ⟨"ChatX", "Chen", "Can we meet at 3pm?"⟩, none, [], []⟩
    "sure works for me" (.sendReturns "Sounds good" true)
    ⟨"ChatX", "Chen", "Can we meet at 3pm?"⟩ rfl rfl

theorem processDecision_notify (s : AppState) (n : WhatsAppNotification)
    (response : String) (so : SendOutcome) (l1 l2 l3 : String)
    (rest : List String)
    (hls : parseDecisionLines response = l1 :: l2 :: l3 :: rest)
    (h2 : pyUpper (pyStrip l2) ≠ "YES") :
    processWhatsappDecision s n response so
      = ({ s with
            waiting_for_whatsapp_reply := true
            pending_whatsapp_message := some ⟨n.chat_name, n.sender_name, n.message_preview⟩
            last_whatsapp_contact := some n.chat_name },
         [.guiMessage ("New WhatsApp message from " ++ n.sender_name
            ++ "\n\n" ++ pyStrip l3)]
           ++ (if pyUpper (pyStrip l1) = "YES"
               then [.speak (pyStrip l3)] else [])) := by
  simp only [processWhatsappDecision, hls]
  rw [if_neg h2]

/-- Claim C3 (counterexample): a 3-line completion response whose lines
1 and 2 are neither `YES` nor `NO` is not treated as a hard failure —
line 2 is silently read as "do not send", the notify path runs, and the
pending reply slot is set. -/
theorem C3_counterexample :
    parseDecisionLines "MAYBE\nMAYBE\nChen wants to meet at 3pm"
      = ["MAYBE", "MAYBE", "Chen wants to meet at 3pm"]
    ∧ (pyUpper (pyStrip "MAYBE") == "YES") = false
    ∧ (pyUpper (pyStrip "MAYBE") == "NO") = false
    ∧ (processWhatsappDecision ⟨true, false, none, none, [], []⟩
        ⟨"ChatX", "Chen", "Can we meet at 3pm?"⟩
        "MAYBE\nMAYBE\nChen wants to meet at 3pm" .ok).1.waiting_for_whatsapp_reply
        = true
    ∧ (processWhatsappDecision ⟨true, false, none, none, [], []⟩
        ⟨"ChatX", "Chen", "Can we meet at 3pm?"⟩
        "MAYBE\nMAYBE\nChen wants to meet at 3pm" .ok).1.pending_whatsapp_message
        = some ⟨"ChatX", "Chen", "Can we meet at 3pm?"⟩ := by
  refine ⟨by decide, by decide, by decide, rfl, rfl⟩

/-- Claim C3 (amended): a response with fewer than 3 non-empty lines is
a hard failure — the engine only logs, performs no send, sets no pending
slot, changes no state, and does not retry.  Lines 1 and 2 are however
not validated as `YES`/`NO`: any line-2 value other than `YES`
(case-insensitively) is treated as `NO` and routes to the normal notify
path, which does set the pending slot and performs no send. -/
theorem C3_amended :
    (∀ (s : AppState) (n : WhatsAppNotification) (response : String)
       (so : SendOutcome),
      (parseDecisionLines response).length < 3 →
      processWhatsappDecision s n response so
        = (s, [.logError "Invalid GPT-4o response format"]))
    ∧ (∀ (s : AppState) (n : WhatsAppNotification) (response : String)
         (so : SendOutcome) (l1 l2 l3 : String) (rest : List String),
        parseDecisionLines response = l1 :: l2 :: l3 :: rest →
        pyUpper (pyStrip l2) ≠ "YES" →
        (processWhatsappDecision s n response so).1.waiting_for_whatsapp_reply = true
        ∧ (processWhatsappDecision s n response so).1.pending_whatsapp_message
            = some ⟨n.chat_name, n.sender_name, n.message_preview⟩
        ∧ ∀ a ∈ (processWhatsappDecision s n response so).2,
            isSendAttempt a = false) := by
  constructor
  · intro s n response so h
    rcases hls : parseDecisionLines response with _ | ⟨l1, _ | ⟨l2, _ | ⟨l3, rest⟩⟩⟩
    · simp only [processWhatsappDecision, hls]
    · simp only [processWhatsappDecision, hls]
    · simp only [processWhatsappDecision, hls]
    · rw [hls] at h
      simp at h
      omega
  · intro s n response so l1 l2 l3 rest hls h2
    rw [processDecision_notify s n response so l1 l2 l3 rest hls h2]
    refine ⟨rfl, rfl, ?_⟩
    intro a ha
    rcases List.mem_append.mp ha with h | h
    · simp at h
      subst h
      rfl
    · split at h
      · simp at h
        subst h
        rfl
      · simp at h

/-- Claim C3 (witness): the spec scenario of a 2-line response — the
engine logs, aborts, and changes nothing. -/
theorem C3_amended_witness :
    (parseDecisionLines "NO\nNO").length < 3
    ∧ processWhatsappDecision ⟨true, false, none, none, [], []⟩
        ⟨"ChatX", "Chen", "Can we meet at 3pm?"⟩ "NO\nNO" .ok
      = (⟨true, false, none, none, [], []⟩,
         [.logError "Invalid GPT-4o response format"]) :=
  ⟨by decide,
   C3_amended.1 ⟨true, false, none, none, [], []⟩
     ⟨"ChatX", "Chen", "Can we meet at 3pm?"⟩ "NO\nNO" .ok (by decide)⟩

/-- Claim C4 (counterexample): the WebJS service's `send_message`
returns `True` on a 200 send response while persisting nothing to the
Chat Store — the service holds no database at all. -/
theorem C4_counterexample :
    sendMessageWebJS "Chen" "See you at 3" .sendHttp200 = (true, []) := rfl

/-- Claim C4 (amended): the Selenium service's `send_message` persists
an outgoing record (direction outgoing, `is_from_me` true, content the
sent text) before returning `True`; the WebJS service's `send_message`
never writes to the Chat Store, so its `True` return carries no
persistence guarantee. -/
theorem C4_amended :
    (∀ (contact message : String) (outcomes : List AttemptOutcome),
        (sendMessageSelenium contact message outcomes).1 = true →
        (sendMessageSelenium contact message outcomes).2
            = [mkOutgoing contact message]
          ∧ (mkOutgoing contact message).direction = .outgoing
          ∧ (mkOutgoing contact message).is_from_me = true
          ∧ (mkOutgoing contact message).content = message)
    ∧ (∀ (contact message : String) (o : WebJSSendOutcome),
        (sendMessageWebJS contact message o).2 = []) := by
  constructor
  · intro contact message outcomes h
    refine ⟨?_, rfl, rfl, rfl⟩
    induction outcomes with
    | nil => simp [sendMessageSelenium] at h
    | cons o rest ih =>
      cases o with
      | contactNotFound => simp [sendMessageSelenium] at h
      | sendOk => rfl
      | raisesBeforeSave => exact ih h
  · intro contact message o
    cases o <;> rfl

/-- Claim C4 (witness): a first-attempt success on the Selenium path
persists exactly the outgoing record. -/
theorem C4_amended_witness :
    (sendMessageSelenium "Chen" "See you at 3" [.sendOk]).1 = true
    ∧ (sendMessageSelenium "Chen" "See you at 3" [.sendOk]).2
        = [mkOutgoing "Chen" "See you at 3"]
      ∧ (mkOutgoing "Chen" "See you at 3").direction = .outgoing
      ∧ (mkOutgoing "Chen" "See you at 3").is_from_me = true
      ∧ (mkOutgoing "Chen" "See you at 3").content = "See you at 3" :=
  ⟨rfl, C4_amended.1 "Chen" "See you at 3" [.sendOk] rfl⟩

/-- Claim C5 (counterexample): when the auto-reply branch
(`SHOULD_SEND = YES`) gets a `False` from `send_message`, the failure is
only logged — no conversation-view message and no speech is produced,
and the state is unchanged; the failed send is silently dropped from
the user's point of view. -/
theorem C5_counterexample :
    ((processWhatsappDecision ⟨true, false, none, none, [], []⟩
        ⟨"ChatX", "Chen", "Can we meet at 3pm?"⟩
        "NO\nYES\nChen\nSee you then\nConfirmed the meeting" .fail).2.countP
        isSendAttempt) = 1
    ∧ ((processWhatsappDecision ⟨true, false, none, none, [], []⟩
        ⟨"ChatX", "Chen", "Can we meet at 3pm?"⟩
        "NO\nYES\nChen\nSee you then\nConfirmed the meeting" .fail).2.countP
        isUserVisible) = 0
    ∧ (processWhatsappDecision ⟨true, false, none, none, [], []⟩
        ⟨"ChatX", "Chen", "Can we meet at 3pm?"⟩
        "NO\nYES\nChen\nSee you then\nConfirmed the meeting" .fail).1
        = ⟨true, false, none, none, [], []⟩ := by
  refine ⟨by decide, by decide, rfl⟩

/-- Claim C5 (amended): the direct send-command path surfaces an
explicit user-visible notice on every non-successful outcome, and the
pending-reply rewrite path surfaces a user-visible message on every
outcome (including send failure and exceptions); but an auto-reply
(`SHOULD_SEND = YES`) send that returns `False` is only logged, with no
user-visible failure notice. -/
theorem C5_amended :
    (∀ (contact message : String) (o : SendOutcome), o ≠ .ok →
        (sendWhatsappMessageBg contact message o).any isUserVisible = true)
    ∧ (∀ (s : AppState) (user_text : String) (p : PendingMsg)
         (o : RewriteOutcome),
        s.pending_whatsapp_message = some p →
        (rewriteAndSendWhatsappReply s user_text o).2.any isUserVisible = true)
    ∧ (∀ (s : AppState) (n : WhatsAppNotification) (response : String)
         (l1 l2 l3 l4 l5 : String) (rest : List String),
        parseDecisionLines response = l1 :: l2 :: l3 :: l4 :: l5 :: rest →
        pyUpper (pyStrip l2) = "YES" →
        (processWhatsappDecision s n response .fail).2
          = [.sendAttempt (pyStrip l3) (pyStrip l4),
             .logError "Failed to send auto-reply"]) := by
  refine ⟨?_, ?_, ?_⟩
  · intro contact message o ho
    cases o with
    | ok => exact absurd rfl ho
    | fail => rfl
    | raises => rfl
  · intro s user_text p o hp
    simp only [rewriteAndSendWhatsappReply, hp]
    cases o with
    | rewriteRaises => simp [isUserVisible]
    | sendRaises rw => simp [isUserVisible]
    | sendReturns rw ok => cases ok <;> simp [isUserVisible]
  · intro s n response l1 l2 l3 l4 l5 rest hls h2
    simp only [processWhatsappDecision, hls]
    rw [if_pos h2]

/-- Claim C5 (witness): a failed direct send surfaces a visible notice;
the concrete auto-reply failure in the counterexample surfaces none. -/
theorem C5_amended_witness :
    (sendWhatsappMessageBg "Chen" "See you at 3" .fail).any isUserVisible
      = true :=
  C5_amended.1 "Chen" "See you at 3" .fail (by decide)

/-- Claim C10: for an incoming message whose content exceeds 100
characters, the notification preview is exactly the first 100
characters (and not the full content), the decision prompt embeds that
truncated preview, and the pending slot set by the notify path stores
that truncated preview as the original message text. -/
theorem C10_truncation (m : WAMessage) (tc ch uc : String)
    (h : 100 < m.content.length) :
    (triggerNotification m).message_preview = pyTake 100 m.content
    ∧ (triggerNotification m).message_preview ≠ m.content
    ∧ (∃ a b : List Char,
        (buildDecisionUserMessage tc ch uc (triggerNotification m)).toList
          = a ++ (triggerNotification m).message_preview.toList ++ b)
    ∧ (∀ (s : AppState) (so : SendOutcome) (response : String)
         (l1 l2 l3 : String) (rest : List String),
        parseDecisionLines response = l1 :: l2 :: l3 :: rest →
        pyUpper (pyStrip l2) ≠ "YES" →
        (processWhatsappDecision s (triggerNotification m) response
            so).1.pending_whatsapp_message
          = some ⟨m.chat_name, m.sender_name, pyTake 100 m.content⟩) := by
  have hlen : (pyTake 100 m.content).length = 100 := by
    show (m.content.toList.take 100).length = 100
    rw [List.length_take]
    have hl : m.content.toList.length = m.content.length := rfl
    omega
  refine ⟨rfl, ?_, ?_, ?_⟩
  · intro heq
    have heq' : pyTake 100 m.content = m.content := heq
    rw [heq'] at hlen
    omega
  · refine ⟨(tc ++ "\n\n" ++ ch ++ "\n\n" ++ uc ++ "\n\n"
        ++ "--- NEW MESSAGE ---\n" ++ "From: " ++ m.sender_name ++ "\n"
        ++ "Chat: " ++ m.chat_name ++ "\n" ++ "Message: ").toList,
      ("\n\n" ++ decisionInstructions).toList, ?_⟩
    simp [buildDecisionUserMessage, String.toList, String.data_append,
      triggerNotification]
  · intro s so response l1 l2 l3 rest hls h2
    rw [processDecision_notify s (triggerNotification m) response so
      l1 l2 l3 rest hls h2]
    rfl

/-- Claim C10 (witness): the truncation behaviour at a concrete
101-character message. -/
theorem C10_truncation_witness :
    100 < sampleLongMessage.content.length
    ∧ ((triggerNotification sampleLongMessage).message_preview
          = pyTake 100 sampleLongMessage.content
       ∧ (triggerNotification sampleLongMessage).message_preview
          ≠ sampleLongMessage.content
       ∧ (∃ a b : List Char,
          (buildDecisionUserMessage "tctx" "hist" "uctx"
              (triggerNotification sampleLongMessage)).toList
            = a ++ (triggerNotification sampleLongMessage).message_preview.toList
                ++ b)
       ∧ (∀ (s : AppState) (so : SendOutcome) (response : String)
            (l1 l2 l3 : String) (rest : List String),
          parseDecisionLines response = l1 :: l2 :: l3 :: rest →
          pyUpper (pyStrip l2) ≠ "YES" →
          (processWhatsappDecision s (triggerNotification sampleLongMessage)
              response so).1.pending_whatsapp_message
            = some ⟨sampleLongMessage.chat_name,
                sampleLongMessage.sender_name,
                pyTake 100 sampleLongMessage.content⟩)) :=
  ⟨by decide,
   C10_truncation sampleLongMessage "tctx" "hist" "uctx" (by decide)⟩

end Friday
